import Mathlib

/-!
Verification of the `mygoscraper` calendar-fetch core.

The embedding translates `src/handlers/calendar.go` (the `GetCalendar`
handler) and the authentication middleware of the Fiber `main` into plain
Lean functions.  The upstream `helpers.CalendarFetcher` and the response
normalizer are not part of the repository snapshot; where a claim depends
on them they are modelled from the specification, and each such definition
says so in its doc comment.
-/

namespace GoScraper

/-- Shallow embedding of Go's `time.Time` as produced by `time.Date`:
the wall-clock components that `time.Date(year, month, day, hour, min,
sec, nsec, loc)` receives.  The location argument (`time.Local` in the
source) is not modelled. -/
structure GoDate where
  year : Int
  month : Nat
  day : Nat
  hour : Nat
  min : Nat
  sec : Nat
  nsec : Nat
deriving DecidableEq, Repr

/-- One normalized calendar event.  The upstream record shape is not in
the repository snapshot; the spec only requires a stable identifier (for
deduplication) and a chronological key (for sorting), so an event is
modelled as that pair. -/
structure Event where
  id : Nat
  day : Nat
deriving DecidableEq, Repr

/-- One month entry of `CalendarResponse.Calendar`: the month it covers
and its normalized events. -/
structure MonthEntry where
  year : Int
  month : Nat
  events : List Event
deriving DecidableEq, Repr

/-- Embedding of `types.CalendarResponse`: `Error bool`, `Message string`,
`Status int`, `Calendar []MonthEntry`. -/
structure CalendarResponse where
  error : Bool
  message : String
  status : Int
  calendar : List MonthEntry
deriving DecidableEq, Repr

/-- A Go `error` value is modelled by its message; `nil` is `none` at the
use sites. -/
abbrev GoError := String

/-- The date built at `calendar.go:22`:
`time.Date(2025, time.October, 1, 0, 0, 0, 0, time.Local)`.
`time.October` is month 10. -/
def targetDate : GoDate := ⟨2025, 10, 1, 0, 0, 0, 0⟩

/-- A fetcher is what `helpers.NewCalendarFetcher(targetDate, token)`
followed by `scraper.GetCalendar()` amounts to: from the target date and
the token to a response pointer (possibly nil) and an error (possibly
nil).  `GetCalendar` below is parametric in it because the helper package
is not in the repository snapshot. -/
abbrev Fetcher := GoDate → String → Option CalendarResponse × Option GoError

/-- Embedding of `handlers.GetCalendar` (`src/handlers/calendar.go`).
The first component is the `(*CalendarResponse, error)` pair the Go
function returns; the second counts how many times the fetcher was
invoked (zero or one), which is the observable "upstream call" count of
the handler.  The `month` parameter is carried exactly as in the source:
it is logged and never used. -/
def GetCalendar (fetch : Fetcher) (token : String) (month : Int) :
    (Option CalendarResponse × Option GoError) × Nat :=
  if token = "" then
    ((some ⟨true, "Missing authentication token", 401, []⟩, none), 0)
  else
    (fetch targetDate token, 1)

/-- Keep the first occurrence of each event id, dropping later
duplicates. -/
def dedupe (es : List Event) : List Event :=
  es.foldl (fun acc e => if acc.any (fun x => x.id = e.id) then acc else acc ++ [e]) []

/-- Insert an event into a day-sorted list. -/
def insertByDay (e : Event) : List Event → List Event
  | [] => [e]
  | x :: xs => if e.day ≤ x.day then e :: x :: xs else x :: insertByDay e xs

/-- Insertion sort by event day (chronological order within the month). -/
def sortByDay : List Event → List Event
  | [] => []
  | x :: xs => insertByDay x (sortByDay xs)

/-- Modelled from the spec: the Response Normalizer is not under the
repository snapshot (package `helpers` is absent); per spec section 4.4 it
is the pure function `Normalize(segments, targetMonth)` that deduplicates
events by stable identifier, sorts them chronologically, and fills
`Status=200, Error=false` on success, producing the requested month's
entry. -/
def Normalize (segments : List (List Event)) (tm : GoDate) : CalendarResponse :=
  ⟨false, "", 200, [⟨tm.year, tm.month, sortByDay (dedupe segments.flatten)⟩]⟩

/-- The possible outcomes of the upstream exchange, as the spec's error
taxonomy classifies them: upstream rejected the token, network failure,
no data for the month, or a successful list of raw segments. -/
inductive UpstreamOutcome where
  | authError
  | networkError
  | noData
  | segments (segs : List (List Event))
deriving DecidableEq, Repr

/-- Modelled from the spec: `helpers.NewCalendarFetcher`/`GetCalendar`
(the Calendar Fetcher, spec sections 4.3 and 7) is not under the
repository snapshot.  Per the spec it maps `AuthError` to a well-formed
401 failure, `NetworkError` to 502, an out-of-retention month to 404, and
hands a complete segment list to the Normalizer; every failure yields
`Error=true` with a human-readable message, never a bare error. -/
def CalendarFetcher (upstream : UpstreamOutcome) : Fetcher := fun tm _token =>
  match upstream with
  | .authError => (some ⟨true, "upstream rejected token", 401, []⟩, some "AuthError")
  | .networkError => (some ⟨true, "upstream unreachable", 502, []⟩, some "NetworkError")
  | .noData => (some ⟨true, "no data available for requested month", 404, []⟩, some "UpstreamError")
  | .segments segs => (some (Normalize segs tm), none)

/-- Outcome of one Fiber middleware invocation: short-circuit with a
status and a JSON error body, or pass the request to `c.Next()`. -/
inductive MiddlewareResult where
  | reject (status : Nat) (errorBody : String)
  | next
deriving DecidableEq, Repr

/-- Embedding of the authentication middleware registered in `main`:
`token := c.Get("Authorization")`; if it is empty or has neither the
`"Bearer "` nor the `"Token "` prefix, respond 401 with
`{"error": "Missing Authorization header"}`, otherwise `c.Next()`. -/
def authMiddleware (authHeader : String) : MiddlewareResult :=
  if authHeader = "" ∨ (authHeader.startsWith "Bearer " = false ∧
      authHeader.startsWith "Token " = false) then
    .reject 401 "Missing Authorization header"
  else
    .next

/-- A fetcher that echoes the date it was handed back inside the
response, exposing which target month the handler asked for. -/
def dateEchoFetch : Fetcher := fun d _ => (some ⟨false, "", 200, [⟨d.year, d.month, []⟩]⟩, none)

/-- A fetcher that always succeeds with an empty calendar. -/
def okFetch : Fetcher := fun _ _ => (some ⟨false, "", 200, []⟩, none)

/-- The per-response invariant that actually holds of the handler
composed with the spec-modelled fetcher: a failure response carries an
empty calendar, and a success response carries exactly one month entry,
for the hardcoded target month October 2025 (not the caller's month). -/
def respInvariant (r : CalendarResponse) : Prop :=
  if r.error then r.calendar = []
  else r.calendar.map MonthEntry.month = [10] ∧ r.calendar.map MonthEntry.year = [2025]

/-- A failure response that is well formed in the spec's sense: the error
flag set, a non-empty human-readable message, and one of the failure
status codes the spec surfaces. -/
def wellFormedFailure (r : CalendarResponse) : Prop :=
  r.error = true ∧ r.message ≠ "" ∧ (r.status = 401 ∨ r.status = 404 ∨ r.status = 502)

/-- C1 (code evaluated at the failing input): with token `"abc123"` and
month `5`, the date `GetCalendar` hands to the fetcher is the hardcoded
2025-10-01, so its month is 10, not the requested 5 — the target window is
not computed from the caller-supplied month parameter. -/
theorem getCalendar_hardcoded_target_month :
    (GetCalendar dateEchoFetch "abc123" 5).fst.fst =
      some ⟨false, "", 200, [⟨2025, 10, []⟩]⟩ ∧ (10 : Nat) ≠ 5 := by decide

/-- C2: for the empty token and any month and any fetcher, `GetCalendar`
returns exactly the `Error=true, Status=401,
Message="Missing authentication token"` response with a nil error, and
the fetcher is invoked zero times. -/
theorem getCalendar_empty_token_unauthorized (fetch : Fetcher) (month : Int) :
    GetCalendar fetch "" month =
      ((some ⟨true, "Missing authentication token", 401, []⟩, none), 0) := rfl

/-- C3 counterexample: the single-space token is whitespace-only
(`" ".trim = ""`), yet `GetCalendar` makes one upstream call and passes
the fetcher's 200 success through, instead of returning `Error=true,
Status=401` with zero calls. -/
theorem whitespace_token_counterexample :
    " ".data.all Char.isWhitespace = true ∧ (GetCalendar okFetch " " 10).snd = 1 ∧
      (GetCalendar okFetch " " 10).fst.fst = some ⟨false, "", 200, []⟩ := by decide

/-- C3 amended: only the exactly-empty token is rejected before network
I/O; every other token (whitespace-only ones included) is forwarded to
the fetcher, which is invoked exactly once. -/
theorem getCalendar_rejects_only_exact_empty (fetch : Fetcher) (token : String) (m : Int) :
    (token = "" →
      GetCalendar fetch token m =
        ((some ⟨true, "Missing authentication token", 401, []⟩, none), 0)) ∧
    (token ≠ "" → (GetCalendar fetch token m).snd = 1 ∧
      (GetCalendar fetch token m).fst = fetch targetDate token) := by
  constructor
  · intro h
    simp [GetCalendar, h]
  · intro h
    simp [GetCalendar, h]

/-- C3 witness: the amended theorem at the concrete non-empty token
`" "`. -/
theorem getCalendar_rejects_only_exact_empty_witness :
    (GetCalendar okFetch " " 3).snd = 1 ∧
      (GetCalendar okFetch " " 3).fst = okFetch targetDate " " :=
  (getCalendar_rejects_only_exact_empty okFetch " " 3).2 (by decide)

/-- C4 counterexample: requesting month 5 with a successful upstream
yields `Error=false` but a calendar whose only entry is for month 10
(the hardcoded October 2025), so the calendar does not contain the
requested month's entries. -/
theorem requested_month_counterexample :
    (GetCalendar (CalendarFetcher (.segments [[⟨1, 3⟩]])) "abc" 5).fst.fst =
      some ⟨false, "", 200, [⟨2025, 10, [⟨1, 3⟩]⟩]⟩ ∧ (10 : Nat) ≠ 5 := by decide

/-- C4 amended: every response produced by `GetCalendar` over the
spec-modelled fetcher satisfies `respInvariant`: a failure response has
an empty calendar, and a success response carries exactly the hardcoded
target month's (October 2025) entry rather than the requested month's. -/
theorem getCalendar_response_invariant (token : String) (m : Int) (up : UpstreamOutcome)
    (r : CalendarResponse)
    (h : (GetCalendar (CalendarFetcher up) token m).fst.fst = some r) :
    respInvariant r := by
  by_cases ht : token = ""
  · simp [GetCalendar, ht] at h
    simp [← h, respInvariant]
  · cases up <;> simp [GetCalendar, CalendarFetcher, ht, Normalize] at h <;>
      simp [← h, respInvariant, targetDate]

/-- C4 witness: the invariant theorem applied on the empty-token path. -/
theorem getCalendar_response_invariant_witness :
    respInvariant ⟨true, "Missing authentication token", 401, []⟩ :=
  getCalendar_response_invariant "" 0 .noData _ rfl

/-- C5: over the spec-modelled fetcher, `GetCalendar` never returns a nil
response; whenever the Go error is non-nil the response still has
`Error=true`, and every `Error=true` response is well formed (non-empty
human-readable message, status 401, 404 or 502). -/
theorem getCalendar_no_raw_error (token : String) (m : Int) (up : UpstreamOutcome) :
    (GetCalendar (CalendarFetcher up) token m).fst.fst ≠ none ∧
    ∀ r, (GetCalendar (CalendarFetcher up) token m).fst.fst = some r →
      ((GetCalendar (CalendarFetcher up) token m).fst.snd ≠ none → r.error = true) ∧
      (r.error = true → wellFormedFailure r) := by
  by_cases ht : token = ""
  · refine ⟨by simp [GetCalendar, ht], fun r hr => ?_⟩
    simp [GetCalendar, ht] at hr
    simp [GetCalendar, ht, ← hr, wellFormedFailure]
  · cases up <;>
      refine ⟨by simp [GetCalendar, CalendarFetcher, ht], fun r hr => ?_⟩ <;>
      simp [GetCalendar, CalendarFetcher, ht, Normalize] at hr <;>
      simp [GetCalendar, CalendarFetcher, ht, Normalize, ← hr, wellFormedFailure]

/-- C5 witness: the theorem at a concrete network failure, yielding the
well-formed 502 response. -/
theorem getCalendar_no_raw_error_witness :
    wellFormedFailure ⟨true, "upstream unreachable", 502, []⟩ :=
  ((getCalendar_no_raw_error "t" 1 .networkError).2
    ⟨true, "upstream unreachable", 502, []⟩ (by decide)).2 rfl

/-- C6: the target date `GetCalendar` constructs is the first instant of
its month: day-of-month 1 and zero hour, minute, second and nanosecond
components. -/
theorem targetDate_first_instant_of_month :
    targetDate.day = 1 ∧ targetDate.hour = 0 ∧ targetDate.min = 0 ∧
      targetDate.sec = 0 ∧ targetDate.nsec = 0 := by decide

/-- C7: `Normalize` is deterministic: two calls on equal segment
sequences and equal target months yield identical `CalendarResponse`
values (and as a plain function it performs no I/O). -/
theorem normalize_deterministic (s1 s2 : List (List Event)) (t1 t2 : GoDate)
    (hs : s1 = s2) (ht : t1 = t2) : Normalize s1 t1 = Normalize s2 t2 := by
  rw [hs, ht]

/-- C7 witness: determinism at a concrete segment list and the target
date. -/
theorem normalize_deterministic_witness :
    Normalize [[⟨1, 2⟩]] targetDate = Normalize [[⟨1, 2⟩]] targetDate :=
  normalize_deterministic [[⟨1, 2⟩]] [[⟨1, 2⟩]] targetDate targetDate rfl rfl

/-- C8: the month argument has no effect on `GetCalendar` at all — for
any fetcher and token, any two month values (in or out of 1..12) produce
identical outcomes — and the target date is the fixed midnight
2025-10-01. -/
theorem getCalendar_month_has_no_effect (fetch : Fetcher) (token : String) (m1 m2 : Int) :
    GetCalendar fetch token m1 = GetCalendar fetch token m2 ∧
      targetDate = ⟨2025, 10, 1, 0, 0, 0, 0⟩ :=
  ⟨rfl, rfl⟩

/-- C9: on the empty-token path the Go error component is nil; the 401
credential failure is reported only inside the response struct. -/
theorem getCalendar_empty_token_nil_goError (fetch : Fetcher) (m : Int) :
    (GetCalendar fetch "" m).fst.snd = none ∧
      (GetCalendar fetch "" m).fst.fst =
        some ⟨true, "Missing authentication token", 401, []⟩ :=
  ⟨rfl, rfl⟩

/-- C10: the authentication middleware rejects every request whose
Authorization header is empty or lacks both the `"Bearer "` and the
`"Token "` prefix, answering 401 with the
`Missing Authorization header` error body and never passing the request
downstream. -/
theorem authMiddleware_rejects_missing_or_unschemed (h : String)
    (hBad : h = "" ∨ (h.startsWith "Bearer " = false ∧ h.startsWith "Token " = false)) :
    authMiddleware h = .reject 401 "Missing Authorization header" := by
  unfold authMiddleware
  rw [if_pos hBad]

/-- C10 witness: the middleware theorem at the empty header. -/
theorem authMiddleware_rejects_witness :
    authMiddleware "" = .reject 401 "Missing Authorization header" :=
  authMiddleware_rejects_missing_or_unschemed "" (Or.inl rfl)

end GoScraper
